import Mathlib

/-!
Verification of the multi-agent orchestration and weighted-consensus engine of
the `prognosticator` repository, as a shallow embedding in Lean 4.

Modelling conventions:
* Python floats are modelled as rationals (`ℚ`); the claims under study only
  depend on exact arithmetic on small decimal constants.
* Wall-clock times (`time.time()`, ISO timestamps) are modelled as rationals.
* SQLite tables are modelled as lists of rows threaded through the functions
  that read and write them.
* The LLM backend (`a callable that takes a prompt and model identifier and
  returns text, or fails`) is an explicit oracle parameter.
* Regex matching is embedded by dedicated matchers implementing the semantics
  of the concrete patterns appearing in the code.
-/

set_option maxRecDepth 200000
set_option maxHeartbeats 2000000

namespace Prognosticator

/-! ## Circuit breaker (`src/forecasting/ollama_resilience.py`) -/

/-- `CircuitState` (CLOSED / OPEN / HALF_OPEN); `OPEN` is rendered `opened`
because `open` is a Lean keyword. -/
inductive CircuitState
  | closed
  | opened
  | halfOpen
  deriving DecidableEq, Repr

/-- `CircuitBreakerConfig` with the source's defaults. -/
structure CircuitBreakerConfig where
  failure_threshold : Nat := 5
  timeout_seconds : ℚ := 60
  half_open_max_calls : Nat := 3
  deriving Repr

/-- Mutable state of `OllamaCircuitBreaker`, with `__init__`'s defaults. -/
structure OllamaCircuitBreaker where
  config : CircuitBreakerConfig := {}
  state : CircuitState := .closed
  failure_count : Nat := 0
  last_failure_time : Option ℚ := none
  half_open_calls : Nat := 0
  deriving Repr

/-- `OllamaCircuitBreaker._should_attempt_reset` (leading underscore dropped);
`now` stands for `time.time()`. -/
def OllamaCircuitBreaker.should_attempt_reset (cb : OllamaCircuitBreaker) (now : ℚ) : Bool :=
  match cb.last_failure_time with
  | none => true
  | some t => decide (now - t ≥ cb.config.timeout_seconds)

/-- `OllamaCircuitBreaker._on_success` (leading underscore dropped). -/
def OllamaCircuitBreaker.on_success (cb : OllamaCircuitBreaker) : OllamaCircuitBreaker :=
  match cb.state with
  | .halfOpen =>
      let h := cb.half_open_calls + 1
      if h ≥ cb.config.half_open_max_calls then
        { cb with state := .closed, failure_count := 0, half_open_calls := h }
      else
        { cb with half_open_calls := h }
  | .closed => { cb with failure_count := 0 }
  | .opened => cb

/-- `OllamaCircuitBreaker._on_failure` (leading underscore dropped); `now` is
the `time.time()` recorded into `last_failure_time`. -/
def OllamaCircuitBreaker.on_failure (cb : OllamaCircuitBreaker) (now : ℚ) : OllamaCircuitBreaker :=
  let cb' := { cb with failure_count := cb.failure_count + 1, last_failure_time := some now }
  if cb'.state = .halfOpen then { cb' with state := .opened }
  else if cb'.failure_count ≥ cb'.config.failure_threshold then { cb' with state := .opened }
  else cb'

/-- The dict returned by `OllamaCircuitBreaker.call`, extended with `invoked`:
whether the wrapped function `func` was executed (in the source, `func` runs
exactly on the non-blocked paths). -/
structure CallResult where
  status : String
  invoked : Bool
  error : Option String
  deriving Repr

/-- `OllamaCircuitBreaker.call`.  The wrapped network function is abstracted
by its outcome `funcSucceeds` (the source catches every exception from
`func`). -/
def OllamaCircuitBreaker.call (cb : OllamaCircuitBreaker) (now : ℚ) (funcSucceeds : Bool) :
    CallResult × OllamaCircuitBreaker :=
  let entered : Option OllamaCircuitBreaker :=
    match cb.state with
    | .opened =>
        if cb.should_attempt_reset now then
          some { cb with state := .halfOpen, half_open_calls := 0 }
        else
          none
    | _ => some cb
  match entered with
  | none =>
      ({ status := "degraded", invoked := false,
         error := some "Circuit breaker open - service unavailable" }, cb)
  | some cb1 =>
      if funcSucceeds then
        ({ status := "success", invoked := true, error := none }, cb1.on_success)
      else
        ({ status := "degraded", invoked := true, error := some "exception" }, cb1.on_failure now)

/-- Fold a sequence of timed calls (time, wrapped-function outcome) through
the breaker, returning the final breaker state. -/
def runCalls (cb : OllamaCircuitBreaker) (events : List (ℚ × Bool)) : OllamaCircuitBreaker :=
  events.foldl (fun c e => (c.call e.1 e.2).2) cb

/-! ## Weighted consensus (`ReputationTracker.get_weighted_consensus`,
`src/forecasting/reputation.py`) -/

/-- One entry of `agent_predictions` (the dict the callers build; the
`.get(..., default)` defaults are applied at construction). -/
structure AgentPrediction where
  agent_name : String
  probability : ℚ
  confidence : ℚ
  weight : ℚ
  deriving Repr

/-- One entry of `weighted_predictions`. -/
structure WeightedPrediction where
  agent_name : String
  probability : ℚ
  confidence : ℚ
  base_weight : ℚ
  reputation_score : ℚ
  final_weight : ℚ
  deriving Repr

/-- The dict returned by `get_weighted_consensus`.  The empty-input early
return carries only four keys, so `dissent_percentage` and `requires_review`
are `Option`s (`none` = key absent). -/
structure ConsensusOut where
  consensus_probability : ℚ
  consensus_confidence : ℚ
  total_weight : ℚ
  agent_weights : List WeightedPrediction
  dissent_percentage : Option ℚ
  requires_review : Option Bool
  deriving Repr

/-- Stable descending insertion used to model Python's stable
`sorted(..., key=..., reverse=True)`. -/
def insertByDesc {α : Type} (key : α → ℚ) (x : α) : List α → List α
  | [] => [x]
  | y :: ys => if key y < key x then x :: y :: ys else y :: insertByDesc key x ys

/-- Stable descending sort by a rational key. -/
def sortByDesc {α : Type} (key : α → ℚ) (l : List α) : List α :=
  l.foldl (fun acc x => insertByDesc key x acc) []

/-- `ReputationTracker.get_weighted_consensus`.  The per-agent lookup
`self.calculate_agent_reputation(agent_name, domain)` is abstracted as the
oracle `rep` (the tracker's SQLite state is fixed during one call). -/
def get_weighted_consensus (rep : String → ℚ) (agent_predictions : List AgentPrediction)
    (use_reputation : Bool := true) : ConsensusOut :=
  if agent_predictions.isEmpty then
    { consensus_probability := 1/2, consensus_confidence := 0, total_weight := 0,
      agent_weights := [], dissent_percentage := none, requires_review := none }
  else
    let weighted_predictions : List WeightedPrediction := agent_predictions.map fun pred =>
      let reputation_score := if use_reputation then rep pred.agent_name else 1
      { agent_name := pred.agent_name, probability := pred.probability,
        confidence := pred.confidence, base_weight := pred.weight,
        reputation_score := reputation_score,
        final_weight := pred.weight * reputation_score * pred.confidence }
    let total_weight := (weighted_predictions.map (·.final_weight)).sum
    let consensus_probability :=
      if total_weight > 0 then
        (weighted_predictions.map (fun p => p.probability * p.final_weight)).sum / total_weight
      else 1/2
    let consensus_confidence :=
      if total_weight > 0 then
        (weighted_predictions.map (fun p => p.confidence * p.final_weight)).sum / total_weight
      else 0
    let consensus_range : ℚ := 2/10
    let dissent_count :=
      weighted_predictions.countP (fun p => decide (|p.probability - consensus_probability| > consensus_range))
    let dissent_percentage := (dissent_count : ℚ) / (weighted_predictions.length : ℚ)
    { consensus_probability := consensus_probability,
      consensus_confidence := consensus_confidence,
      total_weight := total_weight,
      agent_weights := sortByDesc (·.final_weight) weighted_predictions,
      dissent_percentage := some dissent_percentage,
      requires_review := some (decide (dissent_percentage > 4/10)) }

/-! ## Reputation score (`ReputationTracker.calculate_agent_reputation`) -/

/-- One row of the SQL result
`SELECT accuracy_score, confidence, timestamp FROM predictions WHERE
agent_name = ? AND outcome IS NOT NULL [AND domain = ?]`. -/
structure PredRow where
  accuracy_score : Option ℚ
  confidence : ℚ
  timestamp : ℚ
  deriving Repr

/-- Arithmetic core of `ReputationTracker.calculate_agent_reputation` on the
verified-outcome rows of the agent/domain pair.  Timestamps are rationals and
`recent_cutoff` stands for `utcnow() - timedelta(days=30)`; the 24-hour
reputation cache is bypassed (the `use_cache=False` path computes exactly
this). -/
def calculate_agent_reputation (rows : List PredRow) (recent_cutoff : ℚ) : ℚ :=
  if rows.isEmpty then 1/2
  else
    let total := rows.length
    let accuracy_scores := rows.filterMap (·.accuracy_score)
    if accuracy_scores.isEmpty then 1/2
    else
      let base_accuracy := accuracy_scores.sum / accuracy_scores.length
      let recent_scores :=
        (rows.filter (fun r => decide (r.timestamp ≥ recent_cutoff))).filterMap (·.accuracy_score)
      let recent_accuracy :=
        if recent_scores.isEmpty then base_accuracy else recent_scores.sum / recent_scores.length
      let calibration_errors :=
        rows.filterMap (fun r => r.accuracy_score.map (fun a => |a - r.confidence|))
      let calibration_score :=
        if calibration_errors.isEmpty then 1/2
        else 1 - calibration_errors.sum / calibration_errors.length
      let reputation_score :=
        base_accuracy * (5/10) + recent_accuracy * (3/10) + calibration_score * (2/10)
      if total < 10 then
        let sample_penalty := (total : ℚ) / 10
        reputation_score * sample_penalty + (1/2) * (1 - sample_penalty)
      else reputation_score

/-! ## Response cache (`src/forecasting/agent_cache.py`) -/

/-- ASCII lowercasing of a string (`str.lower()` for the inputs in scope). -/
def lowerString (s : String) : String := s.map Char.toLower

/-- Python whitespace (`\s`, and the `str.strip()` default set) for the
ASCII inputs in scope. -/
def isSpaceChar (c : Char) : Bool :=
  c == ' ' || c == '\t' || c == '\n' || c == '\r' || c == Char.ofNat 11 || c == Char.ofNat 12

/-- Python `str.strip()`: drop leading and trailing whitespace. -/
def stripStr (s : String) : String :=
  String.mk (((s.toList.dropWhile isSpaceChar).reverse.dropWhile isSpaceChar).reverse)

/-- `hash_question`: `hashlib.md5(question.lower().strip().encode()).hexdigest()`.
The MD5 hex digest is modelled by the normalized text itself: the cache only
ever compares digests for equality, and the digest is a deterministic
function of `question.lower().strip()`. -/
def hash_question (question : String) : String := stripStr (lowerString question)

/-- One row of the `agent_responses` table.  The table carries
`UNIQUE(question_hash, agent_name)` and an AUTOINCREMENT `id`. -/
structure CacheRow where
  id : Nat
  question_hash : String
  agent_name : String
  analysis : String
  probability : Option ℚ
  confidence : Option ℚ
  recommendation : String
  raw_response : String
  deriving Repr, DecidableEq

/-- The `agent_responses` table: rows in rowid order plus the next
AUTOINCREMENT id. -/
structure CacheDB where
  rows : List CacheRow := []
  next_id : Nat := 1
  deriving Repr, DecidableEq

/-- `SELECT ... WHERE question_hash = ? AND agent_name = ? LIMIT 1`
(first matching row in rowid order; uniqueness makes it unambiguous). -/
def CacheDB.findRow (db : CacheDB) (q_hash agent_name : String) : Option CacheRow :=
  db.rows.find? (fun r => r.question_hash == q_hash && r.agent_name == agent_name)

/-- The dict returned by `get_cached_response`. -/
structure CachedView where
  analysis : String
  probability : Option ℚ
  confidence : Option ℚ
  recommendation : String
  raw_response : String
  deriving Repr, DecidableEq

/-- `get_cached_response`. -/
def get_cached_response (question agent_name : String) (db : CacheDB) : Option CachedView :=
  match db.findRow (hash_question question) agent_name with
  | some r =>
      some { analysis := r.analysis, probability := r.probability,
             confidence := r.confidence, recommendation := r.recommendation,
             raw_response := r.raw_response }
  | none => none

/-- `cache_response`.  The `INSERT` hits the UNIQUE constraint when the
`(question_hash, agent_name)` key is already present; the
`sqlite3.IntegrityError` handler then returns the existing row's id and the
table is left unchanged. -/
def cache_response (question agent_name : String) (analysis : String)
    (probability confidence : Option ℚ) (recommendation raw_response : String)
    (db : CacheDB) : Nat × CacheDB :=
  let q_hash := hash_question question
  match db.findRow q_hash agent_name with
  | some r => (r.id, db)
  | none =>
      let newRow : CacheRow :=
        { id := db.next_id, question_hash := q_hash, agent_name := agent_name,
          analysis := analysis, probability := probability, confidence := confidence,
          recommendation := recommendation, raw_response := raw_response }
      (db.next_id, { rows := db.rows ++ [newRow], next_id := db.next_id + 1 })

/-- A verified sample as the spec describes it (accuracy, stated confidence,
timestamp); used to state the reputation formula in the spec's own terms. -/
structure Sample where
  accuracy : ℚ
  confidence : ℚ
  timestamp : ℚ
  deriving Repr

/-- Mean accuracy over all verified samples. -/
def baseAccuracy (samples : List Sample) : ℚ :=
  (samples.map (·.accuracy)).sum / samples.length

/-- The samples inside the recency window (timestamp at or after the
cutoff). -/
def recentSamples (samples : List Sample) (cutoff : ℚ) : List Sample :=
  samples.filter fun s => decide (s.timestamp ≥ cutoff)

/-- Mean accuracy over the recent samples, falling back to the overall mean
when there are none. -/
def recentAccuracy (samples : List Sample) (cutoff : ℚ) : ℚ :=
  if (recentSamples samples cutoff).length = 0 then baseAccuracy samples
  else ((recentSamples samples cutoff).map (·.accuracy)).sum / (recentSamples samples cutoff).length

/-- Mean absolute calibration error over all verified samples. -/
def meanCalibrationError (samples : List Sample) : ℚ :=
  (samples.map fun s => |s.accuracy - s.confidence|).sum / samples.length

/-- The undamped reputation formula as the spec words it:
Score = 0.5×baseAccuracy + 0.3×recentAccuracy(last 30 days) +
0.2×(1 − meanAbsoluteCalibrationError). -/
def rawReputation (samples : List Sample) (cutoff : ℚ) : ℚ :=
  (5/10) * baseAccuracy samples + (3/10) * recentAccuracy samples cutoff
    + (2/10) * (1 - meanCalibrationError samples)

/-- The full spec-side reputation: the raw score, linearly blended toward the
neutral prior 0.5 with blend factor sampleSize/10 when the sample size is
below 10; 0.5 outright with no samples. -/
def reputationSpec (samples : List Sample) (cutoff : ℚ) : ℚ :=
  if samples.length = 0 then 1/2
  else if samples.length < 10 then
    rawReputation samples cutoff * ((samples.length : ℚ) / 10)
      + (1/2) * (1 - (samples.length : ℚ) / 10)
  else rawReputation samples cutoff

/-- The `predictions` row corresponding to a verified sample. -/
def toPredRow (s : Sample) : PredRow :=
  { accuracy_score := some s.accuracy, confidence := s.confidence, timestamp := s.timestamp }

/-! ## Claim theorems: circuit breaker, consensus, reputation, cache -/

/-- C4: starting from a fresh breaker (default config: failure_threshold 5,
cooldown 60s), after 5 consecutive failures the breaker is Open, and any call
made before the cooldown has elapsed since the last failure returns the
degraded fast-fail result without invoking the wrapped network function,
leaving the breaker unchanged. -/
theorem circuit_breaker_opens_and_fast_fails
    (t1 t2 t3 t4 t5 now : ℚ) (f : Bool) (h : now < t5 + 60) :
    (runCalls {} [(t1, false), (t2, false), (t3, false), (t4, false), (t5, false)]).state
        = CircuitState.opened ∧
    ((runCalls {} [(t1, false), (t2, false), (t3, false), (t4, false), (t5, false)]).call now f).1.status
        = "degraded" ∧
    ((runCalls {} [(t1, false), (t2, false), (t3, false), (t4, false), (t5, false)]).call now f).1.invoked
        = false ∧
    ((runCalls {} [(t1, false), (t2, false), (t3, false), (t4, false), (t5, false)]).call now f).2
        = runCalls {} [(t1, false), (t2, false), (t3, false), (t4, false), (t5, false)] := by
  have hcb : runCalls {} [(t1, false), (t2, false), (t3, false), (t4, false), (t5, false)]
      = { config := {}, state := CircuitState.opened, failure_count := 5,
          last_failure_time := some t5, half_open_calls := 0 } := rfl
  have hno : ¬ (now - t5 ≥ (60 : ℚ)) := by intro hge; linarith
  rw [hcb]
  refine ⟨rfl, ?_, ?_, ?_⟩ <;>
    simp [OllamaCircuitBreaker.call, OllamaCircuitBreaker.should_attempt_reset, hno]

/-- Witness for C4 at concrete inputs. -/
theorem circuit_breaker_opens_and_fast_fails_witness :
    (runCalls {} [(0, false), (1, false), (2, false), (3, false), (4, false)]).state
        = CircuitState.opened ∧
    ((runCalls {} [(0, false), (1, false), (2, false), (3, false), (4, false)]).call 10 true).1.status
        = "degraded" ∧
    ((runCalls {} [(0, false), (1, false), (2, false), (3, false), (4, false)]).call 10 true).1.invoked
        = false ∧
    ((runCalls {} [(0, false), (1, false), (2, false), (3, false), (4, false)]).call 10 true).2
        = runCalls {} [(0, false), (1, false), (2, false), (3, false), (4, false)] :=
  circuit_breaker_opens_and_fast_fails 0 1 2 3 4 10 true (by norm_num)

/-- C5 counterexample: with the default configuration, two consecutive
successes in the HalfOpen state do NOT close the breaker (the source's
`half_open_max_calls` default is 3, not the claimed successThreshold 2).
After 5 failures at time 0 and a success at time 100 the breaker is HalfOpen;
a second consecutive success at time 101 still leaves it HalfOpen. -/
theorem half_open_two_successes_do_not_close :
    (runCalls {} [(0, false), (0, false), (0, false), (0, false), (0, false),
                  (100, true), (101, true)]).state = CircuitState.halfOpen ∧
    (runCalls {} [(0, false), (0, false), (0, false), (0, false), (0, false),
                  (100, true), (101, true)]).state ≠ CircuitState.closed := by
  have h : (runCalls {} [(0, false), (0, false), (0, false), (0, false), (0, false),
      (100, true), (101, true)]).state = CircuitState.halfOpen := by
    with_unfolding_all rfl
  exact ⟨h, by rw [h]; decide⟩

/-- C5 amended: in the HalfOpen state (with the default config), the breaker
transitions to Closed after `half_open_max_calls` = 3 consecutive successes,
and any single failure while HalfOpen returns it immediately to Open and sets
`last_failure_time` to the failure's time (resetting the cooldown clock). -/
theorem half_open_transitions
    (cb : OllamaCircuitBreaker) (t1 t2 t3 tf : ℚ)
    (hstate : cb.state = CircuitState.halfOpen)
    (hcalls : cb.half_open_calls = 0)
    (hcfg : cb.config = {}) :
    (runCalls cb [(t1, true), (t2, true), (t3, true)]).state = CircuitState.closed ∧
    (cb.call tf false).2.state = CircuitState.opened ∧
    (cb.call tf false).2.last_failure_time = some tf := by
  obtain ⟨cfg, st, fc, lt, hoc⟩ := cb
  simp only at hstate hcalls hcfg
  subst hstate hcalls hcfg
  refine ⟨?_, ?_, ?_⟩ <;>
    simp [runCalls, OllamaCircuitBreaker.call, OllamaCircuitBreaker.on_success,
          OllamaCircuitBreaker.on_failure, OllamaCircuitBreaker.should_attempt_reset]

/-- Witness for the amended C5 at concrete inputs. -/
theorem half_open_transitions_witness :
    (runCalls { state := CircuitState.halfOpen } [(1, true), (2, true), (3, true)]).state
        = CircuitState.closed ∧
    (OllamaCircuitBreaker.call { state := CircuitState.halfOpen } 7 false).2.state
        = CircuitState.opened ∧
    (OllamaCircuitBreaker.call { state := CircuitState.halfOpen } 7 false).2.last_failure_time
        = some 7 :=
  half_open_transitions { state := CircuitState.halfOpen } 1 2 3 7 rfl rfl rfl

/-- C3 counterexample: a non-empty panel whose total adjusted weight is zero
(single agent with confidence 0) yields consensus confidence 0, not the
claimed 0.5 (the probability does default to 0.5). -/
theorem zero_weight_consensus_confidence_not_half :
    (get_weighted_consensus (fun _ => 1)
        [{ agent_name := "a", probability := 9/10, confidence := 0, weight := 1 }]
        false).consensus_confidence = 0 ∧
    (get_weighted_consensus (fun _ => 1)
        [{ agent_name := "a", probability := 9/10, confidence := 0, weight := 1 }]
        false).consensus_confidence ≠ 1/2 := by
  have h : (get_weighted_consensus (fun _ => 1)
      [{ agent_name := "a", probability := 9/10, confidence := 0, weight := 1 }]
      false).consensus_confidence = 0 := by
    with_unfolding_all rfl
  exact ⟨h, by rw [h]; norm_num⟩

/-- C3 amended: for a non-empty prediction list whose total adjusted weight
Σ weight_i is zero, the aggregation performs no division by that total (the
guarded branch is taken) and defaults the consensus probability to 0.5 and
the consensus confidence to 0.0. -/
theorem zero_weight_consensus_defaults
    (rep : String → ℚ) (use_rep : Bool) (preds : List AgentPrediction)
    (hne : preds ≠ [])
    (hzero : (preds.map fun p =>
        p.weight * (if use_rep then rep p.agent_name else 1) * p.confidence).sum = 0) :
    (get_weighted_consensus rep preds use_rep).consensus_probability = 1/2 ∧
    (get_weighted_consensus rep preds use_rep).consensus_confidence = 0 := by
  have hempty : preds.isEmpty = false := by
    cases preds with
    | nil => exact absurd rfl hne
    | cons p ps => rfl
  simp only [get_weighted_consensus, hempty, Bool.false_eq_true, if_false, List.map_map]
  have hmap : (preds.map fun p =>
      (fun pred : AgentPrediction =>
        { agent_name := pred.agent_name, probability := pred.probability,
          confidence := pred.confidence, base_weight := pred.weight,
          reputation_score := if use_rep then rep pred.agent_name else 1,
          final_weight := pred.weight * (if use_rep then rep pred.agent_name else 1) *
            pred.confidence : WeightedPrediction }) p |>.final_weight) =
      preds.map fun p => p.weight * (if use_rep then rep p.agent_name else 1) * p.confidence := by
    simp
  rw [Function.comp_def]
  simp only [hmap, hzero, gt_iff_lt, lt_self_iff_false, if_false]
  refine ⟨?_, ?_⟩ <;> first | rfl | trivial

/-- Witness for the amended C3 at concrete inputs. -/
theorem zero_weight_consensus_defaults_witness :
    (get_weighted_consensus (fun _ => 1)
        [{ agent_name := "a", probability := 9/10, confidence := 0, weight := 1 }]
        false).consensus_probability = 1/2 ∧
    (get_weighted_consensus (fun _ => 1)
        [{ agent_name := "a", probability := 9/10, confidence := 0, weight := 1 }]
        false).consensus_confidence = 0 :=
  zero_weight_consensus_defaults (fun _ => 1) false
    [{ agent_name := "a", probability := 9/10, confidence := 0, weight := 1 }]
    (List.cons_ne_nil _ _) (by with_unfolding_all rfl)

/-- The spec's dissent scenario: agents at probabilities 0.1, 0.9, 0.5 with
equal weights and full confidence. -/
def dissentExample : List AgentPrediction :=
  [{ agent_name := "a", probability := 1/10, confidence := 1, weight := 1 },
   { agent_name := "b", probability := 9/10, confidence := 1, weight := 1 },
   { agent_name := "c", probability := 1/2, confidence := 1, weight := 1 }]

/-- C7: for every non-empty aggregation the dissent percentage is the
fraction of agents whose probability differs from the consensus probability
by strictly more than the 0.2 band, and the review flag is set exactly when
that fraction exceeds 0.4.  In the [0.1, 0.9, 0.5] equal-weight instance the
consensus is exactly 0.5 and exactly the agents at 0.1 and 0.9 are counted
as dissenting (dissent 2/3, review required). -/
theorem dissent_band_and_review
    (rep : String → ℚ) (use_rep : Bool) (preds : List AgentPrediction)
    (hne : preds ≠ []) :
    ((get_weighted_consensus rep preds use_rep).dissent_percentage =
        some ((preds.countP (fun p => decide
            (|p.probability - (get_weighted_consensus rep preds use_rep).consensus_probability|
              > 2/10)) : ℚ) / (preds.length : ℚ)) ∧
      (get_weighted_consensus rep preds use_rep).requires_review =
        some (decide (((preds.countP (fun p => decide
            (|p.probability - (get_weighted_consensus rep preds use_rep).consensus_probability|
              > 2/10)) : ℚ) / (preds.length : ℚ)) > 4/10))) ∧
    ((get_weighted_consensus (fun _ => 1) dissentExample false).consensus_probability = 1/2 ∧
      (get_weighted_consensus (fun _ => 1) dissentExample false).dissent_percentage = some (2/3) ∧
      (get_weighted_consensus (fun _ => 1) dissentExample false).requires_review = some true ∧
      dissentExample.map (fun p => decide
          (|p.probability -
            (get_weighted_consensus (fun _ => 1) dissentExample false).consensus_probability|
            > 2/10)) = [true, true, false]) := by
  have hempty : preds.isEmpty = false := by
    cases preds with
    | nil => exact absurd rfl hne
    | cons p ps => rfl
  constructor
  · constructor
    · simp only [get_weighted_consensus, hempty, Bool.false_eq_true, if_false,
        List.countP_map, List.length_map]
      rfl
    · simp only [get_weighted_consensus, hempty, Bool.false_eq_true, if_false,
        List.countP_map, List.length_map]
      rfl
  · refine ⟨?_, ?_, ?_, ?_⟩ <;> with_unfolding_all rfl

/-- Witness for C7 at the [0.1, 0.9, 0.5] instance. -/
theorem dissent_band_and_review_witness :
    ((get_weighted_consensus (fun _ => 1) dissentExample false).dissent_percentage =
        some ((dissentExample.countP (fun p => decide
            (|p.probability -
              (get_weighted_consensus (fun _ => 1) dissentExample false).consensus_probability|
              > 2/10)) : ℚ) / (dissentExample.length : ℚ)) ∧
      (get_weighted_consensus (fun _ => 1) dissentExample false).requires_review =
        some (decide (((dissentExample.countP (fun p => decide
            (|p.probability -
              (get_weighted_consensus (fun _ => 1) dissentExample false).consensus_probability|
              > 2/10)) : ℚ) / (dissentExample.length : ℚ)) > 4/10))) ∧
    ((get_weighted_consensus (fun _ => 1) dissentExample false).consensus_probability = 1/2 ∧
      (get_weighted_consensus (fun _ => 1) dissentExample false).dissent_percentage = some (2/3) ∧
      (get_weighted_consensus (fun _ => 1) dissentExample false).requires_review = some true ∧
      dissentExample.map (fun p => decide
          (|p.probability -
            (get_weighted_consensus (fun _ => 1) dissentExample false).consensus_probability|
            > 2/10)) = [true, true, false]) :=
  dissent_band_and_review (fun _ => 1) false dissentExample (List.cons_ne_nil _ _)

/-- The accuracy projection of mapped prediction rows. -/
theorem filterMap_acc_toPredRow (l : List Sample) :
    (l.map toPredRow).filterMap (fun r => r.accuracy_score) = l.map (fun s => s.accuracy) := by
  induction l with
  | nil => rfl
  | cons s ss ih => simp only [List.map_cons, List.filterMap_cons, toPredRow, ih]

/-- The calibration-error projection of mapped prediction rows. -/
theorem filterMap_cal_toPredRow (l : List Sample) :
    (l.map toPredRow).filterMap (fun r => r.accuracy_score.map (fun a => |a - r.confidence|)) =
      l.map (fun s => |s.accuracy - s.confidence|) := by
  induction l with
  | nil => rfl
  | cons s ss ih =>
      simp only [List.map_cons, List.filterMap_cons, toPredRow, ih]
      rfl

/-- Filtering mapped prediction rows by recency matches filtering samples. -/
theorem filter_toPredRow (cutoff : ℚ) (l : List Sample) :
    (l.map toPredRow).filter (fun r => decide (r.timestamp ≥ cutoff)) =
      (recentSamples l cutoff).map toPredRow := by
  induction l with
  | nil => rfl
  | cons s ss ih =>
      by_cases h : s.timestamp ≥ cutoff
      · simp only [recentSamples, List.map_cons, List.filter_cons, toPredRow] at ih ⊢
        rw [if_pos (by simpa using h), if_pos (by simpa using h), List.map_cons, ih]
        rfl
      · simp only [recentSamples, List.map_cons, List.filter_cons, toPredRow] at ih ⊢
        rw [if_neg (by simpa using h), if_neg (by simpa using h), ih]

/-- C6: on verified samples the computed reputation equals the spec formula
(0.5×base + 0.3×recent + 0.2×(1 − meanCalibrationError), blended toward 0.5
by sampleSize/10 below 10 samples); with 0 verified samples the score is
exactly 0.5; with ≥10 samples no damping is applied. -/
theorem reputation_matches_spec (samples : List Sample) (cutoff : ℚ) :
    calculate_agent_reputation (samples.map toPredRow) cutoff = reputationSpec samples cutoff ∧
    calculate_agent_reputation [] cutoff = 1/2 ∧
    (10 ≤ samples.length →
      calculate_agent_reputation (samples.map toPredRow) cutoff = rawReputation samples cutoff) := by
  have hmain : ∀ l : List Sample,
      calculate_agent_reputation (l.map toPredRow) cutoff = reputationSpec l cutoff := by
    intro l
    cases l with
    | nil => simp [calculate_agent_reputation, reputationSpec]
    | cons s0 ss0 =>
        unfold calculate_agent_reputation
        rw [show ((s0 :: ss0).map toPredRow).isEmpty = false from rfl]
        simp only [filterMap_acc_toPredRow, filterMap_cal_toPredRow, filter_toPredRow,
          List.length_map, Bool.false_eq_true, if_false]
        rw [show ((s0 :: ss0).map (fun s => s.accuracy)).isEmpty = false from rfl,
          show ((s0 :: ss0).map (fun s => |s.accuracy - s.confidence|)).isEmpty = false from rfl]
        simp only [Bool.false_eq_true, if_false]
        simp only [reputationSpec, rawReputation, recentAccuracy, baseAccuracy,
          meanCalibrationError]
        have hlen0 : ¬ (s0 :: ss0).length = 0 := by simp
        rw [if_neg hlen0]
        by_cases hr : (recentSamples (s0 :: ss0) cutoff) = []
        · rw [hr]
          rw [show (([] : List Sample).map (fun s => s.accuracy)).isEmpty = true from rfl]
          simp only [List.length_nil, eq_self_iff_true, if_true]
          by_cases hlt : (s0 :: ss0).length < 10
          · rw [if_pos hlt, if_pos hlt]; ring
          · rw [if_neg hlt, if_neg hlt]; ring
        · have hne' : ((recentSamples (s0 :: ss0) cutoff).map (fun s => s.accuracy)).isEmpty = false := by
            cases hrs : recentSamples (s0 :: ss0) cutoff with
            | nil => exact absurd hrs hr
            | cons a as => rfl
          have hlenne : ¬ (recentSamples (s0 :: ss0) cutoff).length = 0 := by
            intro h0
            exact hr (List.eq_nil_of_length_eq_zero h0)
          rw [hne']
          simp only [Bool.false_eq_true, if_false, List.length_map]
          rw [if_neg hlenne]
          by_cases hlt : (s0 :: ss0).length < 10
          · rw [if_pos hlt, if_pos hlt]; ring
          · rw [if_neg hlt, if_neg hlt]; ring
  refine ⟨hmain samples, by simp [calculate_agent_reputation], ?_⟩
  intro h10
  rw [hmain samples]
  unfold reputationSpec
  rw [if_neg (by omega), if_neg (by omega)]

/-- A set of ten verified samples used to witness the no-damping branch. -/
def tenSamples : List Sample :=
  (List.range 10).map fun i => { accuracy := 1/2, confidence := 1/2, timestamp := (i : ℚ) }

/-- Witness for C6 at a concrete ten-sample history. -/
theorem reputation_matches_spec_witness :
    calculate_agent_reputation (tenSamples.map toPredRow) 0 = reputationSpec tenSamples 0 ∧
    calculate_agent_reputation [] 0 = (1 : ℚ)/2 ∧
    calculate_agent_reputation (tenSamples.map toPredRow) 0 = rawReputation tenSamples 0 :=
  ⟨(reputation_matches_spec tenSamples 0).1,
   (reputation_matches_spec tenSamples 0).2.1,
   (reputation_matches_spec tenSamples 0).2.2 (by with_unfolding_all rfl)⟩

/-- C10: putting a (question, agent) key that is already cached leaves the
table unchanged and returns the id of the existing row; after any number of
further puts for that key, a get still returns the originally cached values
(first write wins, no overwrite). -/
theorem cache_first_write_wins
    (db : CacheDB) (question agent_name : String) (v : CachedView)
    (hget : get_cached_response question agent_name db = some v)
    (a : String) (p c : Option ℚ) (r raw : String)
    (puts : List (String × Option ℚ × Option ℚ × String × String)) :
    (cache_response question agent_name a p c r raw db).2 = db ∧
    (db.findRow (hash_question question) agent_name).map (·.id) =
      some (cache_response question agent_name a p c r raw db).1 ∧
    get_cached_response question agent_name
      (puts.foldl (fun d args =>
        (cache_response question agent_name args.1 args.2.1 args.2.2.1 args.2.2.2.1
          args.2.2.2.2 d).2) db) = some v := by
  have hrow : ∃ row, db.findRow (hash_question question) agent_name = some row := by
    unfold get_cached_response at hget
    cases h : db.findRow (hash_question question) agent_name with
    | none => rw [h] at hget; cases hget
    | some row => exact ⟨row, rfl⟩
  obtain ⟨row, hr⟩ := hrow
  have hstep : ∀ a' : String, ∀ p' c' : Option ℚ, ∀ r' raw' : String,
      cache_response question agent_name a' p' c' r' raw' db = (row.id, db) := by
    intro a' p' c' r' raw'
    simp only [cache_response]
    rw [hr]
  have hfold : ∀ l : List (String × Option ℚ × Option ℚ × String × String),
      l.foldl (fun d args =>
        (cache_response question agent_name args.1 args.2.1 args.2.2.1 args.2.2.2.1
          args.2.2.2.2 d).2) db = db := by
    intro l
    induction l with
    | nil => rfl
    | cons x xs ih =>
        rw [List.foldl_cons, hstep x.1 x.2.1 x.2.2.1 x.2.2.2.1 x.2.2.2.2]
        exact ih
  refine ⟨?_, ?_, ?_⟩
  · rw [hstep a p c r raw]
  · rw [hr, hstep a p c r raw]; rfl
  · rw [hfold puts]; exact hget

/-- The cache table holding one previously stored row for ("Q", "agent"). -/
def exampleCacheDB : CacheDB :=
  (cache_response "Q" "agent" "ana" (some (1/2)) (some (3/4)) "rec" "raw" {}).2

/-- Witness for C10: one cached row, one later conflicting put. -/
theorem cache_first_write_wins_witness :
    (cache_response "Q" "agent" "other" none none "x" "y" exampleCacheDB).2 = exampleCacheDB ∧
    (exampleCacheDB.findRow (hash_question "Q") "agent").map (·.id) =
      some (cache_response "Q" "agent" "other" none none "x" "y" exampleCacheDB).1 ∧
    get_cached_response "Q" "agent"
      ([("z", none, none, "w", "u")].foldl (fun d args =>
        (cache_response "Q" "agent" args.1 args.2.1 args.2.2.1 args.2.2.2.1
          args.2.2.2.2 d).2) exampleCacheDB) =
      some { analysis := "ana", probability := some (1/2), confidence := some (3/4),
             recommendation := "rec", raw_response := "raw" } :=
  cache_first_write_wins exampleCacheDB "Q" "agent"
    { analysis := "ana", probability := some (1/2), confidence := some (3/4),
      recommendation := "rec", raw_response := "raw" }
    (by with_unfolding_all rfl) "other" none none "x" "y" [("z", none, none, "w", "u")]

/-! ## Domain classifier (`src/forecasting/domain_consensus.py`)

Each entry of `DOMAIN_PATTERNS` is a regex of the shape
`\b(alt1|alt2|...)\b` (one alternative, `cop\d+`, ends in a digit class) and
is counted with `len(re.findall(pattern, question_lower))`.  The matchers
below implement exactly these regexes over the lower-cased ASCII question:
a word character is `[a-zA-Z0-9_]`, alternatives are tried in order at each
position, a candidate match must be flanked by word boundaries, and counting
is non-overlapping left to right (the scanner advances one character after a
failed position, and past the match after a successful one). -/

/-- `\w` for the ASCII inputs in scope. -/
def isWordChar (c : Char) : Bool := c.isAlpha || c.isDigit || c == '_'

/-- Whether the previous character (none at the start of the text) is a word
character, i.e. whether a word boundary is absent before the position. -/
def prevIsWord : Option Char → Bool
  | none => false
  | some c => isWordChar c

/-- One alternative of a `\b(...)\b` keyword pattern: a literal, or a literal
followed by `\d+` (for `cop\d+`). -/
inductive KeywordAlt
  | lit (s : String)
  | litDigits (s : String)
  deriving Repr

/-- Match a literal (already lower-cased, as is the scanned text) as a prefix
of the text, returning the remaining text. -/
def matchLit : List Char → List Char → Option (List Char)
  | [], t => some t
  | _ :: _, [] => none
  | p :: ps, t :: ts => if t == p then matchLit ps ts else none

/-- Number of leading characters satisfying `p`. -/
def countLeading (p : Char → Bool) : List Char → Nat
  | [] => 0
  | c :: rest => if p c then countLeading p rest + 1 else 0

/-- Trailing `\b`: the remaining text starts with a non-word character or is
empty. -/
def boundaryAfter : List Char → Bool
  | [] => true
  | c :: _ => !isWordChar c

/-- Match one alternative at the current position (trailing `\b` included);
returns the remaining text.  For `litDigits` the digit run is maximal: a
shorter run would leave a digit (a word character) at the boundary. -/
def matchKeywordAlt : KeywordAlt → List Char → Option (List Char)
  | .lit s, text =>
      match matchLit s.toList text with
      | some rest => if boundaryAfter rest then some rest else none
      | none => none
  | .litDigits s, text =>
      match matchLit s.toList text with
      | some rest =>
          let n := countLeading Char.isDigit rest
          if n ≥ 1 && boundaryAfter (rest.drop n) then some (rest.drop n) else none
      | none => none

/-- First alternative that matches (regex alternation is ordered, and a
failed trailing `\b` backtracks into the next alternative). -/
def matchKeywordAlts : List KeywordAlt → List Char → Option (List Char)
  | [], _ => none
  | a :: rest, text =>
      match matchKeywordAlt a text with
      | some r => some r
      | none => matchKeywordAlts rest text

/-- Non-overlapping scan counting matches of `\b(alts)\b`.  Every alternative
starts with a word character, so after a successful match (whose trailing
boundary guarantees a non-word next character) the scan can resume with a
word-character sentinel as the previous character: the next position cannot
start a match anyway, and later positions see their true predecessor. -/
def scanKeyword (alts : List KeywordAlt) : Nat → Option Char → List Char → Nat
  | 0, _, _ => 0
  | _ + 1, _, [] => 0
  | fuel + 1, prev, c :: rest =>
      if prevIsWord prev then
        scanKeyword alts fuel (some c) rest
      else
        match matchKeywordAlts alts (c :: rest) with
        | some remaining => 1 + scanKeyword alts fuel (some 'a') remaining
        | none => scanKeyword alts fuel (some c) rest

/-- `len(re.findall(pattern, question_lower))` for one keyword pattern. -/
def countKeyword (alts : List KeywordAlt) (text : List Char) : Nat :=
  scanKeyword alts (text.length + 1) none text

/-- `DomainClassifier.DOMAIN_PATTERNS`, in source order. -/
def DOMAIN_PATTERNS : List (String × List (List KeywordAlt)) :=
  [("military",
    [[.lit "military", .lit "troop", .lit "deployment", .lit "weapon", .lit "missile",
      .lit "naval", .lit "airforce", .lit "army", .lit "defense", .lit "combat",
      .lit "war", .lit "conflict", .lit "strategic", .lit "tactical"],
     [.lit "nato", .lit "pentagon", .lit "defense minister", .lit "battalion",
      .lit "carrier group", .lit "aircraft", .lit "fighter jet"]]),
   ("financial",
    [[.lit "market", .lit "stock", .lit "bond", .lit "currency", .lit "forex",
      .lit "gdp", .lit "inflation", .lit "interest rate", .lit "fed",
      .lit "central bank", .lit "dollar", .lit "euro"],
     [.lit "s&p", .lit "dow", .lit "nasdaq", .lit "wall street", .lit "investor",
      .lit "trading", .lit "volatility", .lit "recession", .lit "bull market",
      .lit "bear market"]]),
   ("energy",
    [[.lit "oil", .lit "gas", .lit "petroleum", .lit "opec", .lit "energy",
      .lit "barrel", .lit "crude", .lit "natural gas", .lit "renewable",
      .lit "solar", .lit "wind", .lit "nuclear"],
     [.lit "pipeline", .lit "refinery", .lit "lng", .lit "power grid",
      .lit "electricity", .lit "coal", .lit "uranium", .lit "carbon"]]),
   ("technology",
    [[.lit "cyber", .lit "hack", .lit "malware", .lit "ransomware", .lit "ai",
      .lit "artificial intelligence", .lit "semiconductor", .lit "chip",
      .lit "tech", .lit "software"],
     [.lit "data breach", .lit "vulnerability", .lit "zero-day", .lit "encryption",
      .lit "quantum", .lit "5g", .lit "cloud", .lit "infrastructure"]]),
   ("climate",
    [[.lit "climate", .lit "weather", .lit "hurricane", .lit "flood", .lit "drought",
      .lit "temperature", .lit "carbon", .lit "emissions", .lit "renewable"],
     [.lit "ipcc", .lit "paris agreement", .litDigits "cop", .lit "green",
      .lit "sustainability", .lit "environmental"]]),
   ("geopolitical",
    [[.lit "diplomatic", .lit "treaty", .lit "alliance", .lit "sanction",
      .lit "embargo", .lit "un", .lit "security council", .lit "ambassador"],
     [.lit "sovereignty", .lit "territorial", .lit "border", .lit "refugee",
      .lit "migration", .lit "humanitarian"]]),
   ("logistics",
    [[.lit "supply chain", .lit "shipping", .lit "container", .lit "port",
      .lit "freight", .lit "cargo", .lit "transportation", .lit "bottleneck"],
     [.lit "semiconductor shortage", .lit "just-in-time", .lit "inventory",
      .lit "logistics", .lit "distribution"]]),
   ("societal",
    [[.lit "protest", .lit "riot", .lit "civil unrest", .lit "demonstration",
      .lit "strike", .lit "inequality", .lit "poverty", .lit "unemployment"],
     [.lit "social movement", .lit "populism", .lit "polarization",
      .lit "demographic", .lit "migration"]]),
   ("health",
    [[.lit "pandemic", .lit "virus", .lit "vaccine", .lit "outbreak",
      .lit "epidemic", .lit "who", .lit "health", .lit "hospital",
      .lit "disease", .lit "covid"],
     [.lit "biosecurity", .lit "bioweapon", .lit "quarantine", .lit "mortality",
      .lit "infection rate"]]),
   ("intelligence",
    [[.lit "intelligence", .lit "spy", .lit "espionage", .lit "osint",
      .lit "surveillance", .lit "reconnaissance", .lit "classified"],
     [.lit "cia", .lit "fbi", .lit "nsa", .lit "mi6", .lit "mossad",
      .lit "signal intelligence", .lit "humint"]])]

/-- `DomainClassification`. -/
structure DomainClassification where
  primary_domain : String
  confidence : ℚ
  secondary_domains : List (String × ℚ)
  deriving Repr

/-- The per-domain match counts of `classify`.  In the source,
`domain_scores` is a `defaultdict(int)` and `domain_scores[domain] += matches`
inserts EVERY domain key, with value 0 when nothing matched — so the dict
always has one entry per domain of the taxonomy. -/
def domainScores (question : String) : List (String × Nat) :=
  DOMAIN_PATTERNS.map fun dp =>
    (dp.1, (dp.2.map fun p => countKeyword p (lowerString question).toList).sum)

/-- The secondary-domain list comprehension
`[(domain, score / total_score) for domain, score in sorted_domains[1:]
if score >= secondary_threshold]`: elements are produced left to right, and
the first passing element evaluates `score / total_score`, which raises
`ZeroDivisionError` when `total_score` is 0. -/
def buildSecondaries : List (String × Nat) → ℚ → Nat → Except String (List (String × ℚ))
  | [], _, _ => .ok []
  | (d, s) :: rest, thresh, total =>
      if (s : ℚ) ≥ thresh then
        if total = 0 then .error "ZeroDivisionError"
        else
          match buildSecondaries rest thresh total with
          | .ok tl => .ok ((d, (s : ℚ) / (total : ℚ)) :: tl)
          | .error e => .error e
      else buildSecondaries rest thresh total

/-- `DomainClassifier.classify`.  A Python exception escaping the method is
modelled as `Except.error`. -/
def classify (question : String) : Except String DomainClassification :=
  let domain_scores := domainScores question
  if domain_scores.isEmpty then
    .ok { primary_domain := "geopolitical", confidence := 3/10, secondary_domains := [] }
  else
    let sorted_domains := sortByDesc (fun x => ((x.2 : Nat) : ℚ)) domain_scores
    let total_score : Nat := (domain_scores.map (·.2)).sum
    match sorted_domains with
    | [] => .error "IndexError"
    | (primary_domain, primary_score) :: restSorted =>
        let primary_confidence : ℚ :=
          if total_score > 0 then (primary_score : ℚ) / (total_score : ℚ) else 1/2
        let secondary_threshold : ℚ := (primary_score : ℚ) * (2/10)
        match buildSecondaries restSorted secondary_threshold total_score with
        | .error e => .error e
        | .ok secs =>
            .ok { primary_domain := primary_domain, confidence := primary_confidence,
                  secondary_domains := secs.take 2 }

/-- C2 (code bug): for a question with zero keyword hits in every domain,
`classify` raises `ZeroDivisionError` instead of returning the documented
default domain with confidence 0.3: the `defaultdict` access inserts every
domain with count 0, so the `if not domain_scores` fallback is unreachable,
and the secondary-domain comprehension evaluates `0 / 0`. -/
theorem classify_zero_match_raises (question : String)
    (hzero : domainScores question = DOMAIN_PATTERNS.map fun dp => (dp.1, 0)) :
    classify question = Except.error "ZeroDivisionError" := by
  unfold classify
  rw [hzero]
  with_unfolding_all rfl

/-- Witness for C2: "hello" matches no domain pattern, and `classify` errors
on it. -/
theorem classify_zero_match_raises_witness :
    domainScores "hello" = (DOMAIN_PATTERNS.map fun dp => (dp.1, 0)) ∧
    classify "hello" = Except.error "ZeroDivisionError" :=
  ⟨by with_unfolding_all rfl,
   classify_zero_match_raises "hello" (by with_unfolding_all rfl)⟩

/-! ## Meta-analyst (`src/forecasting/meta_analyst.py`)

`assess_analysis_quality` counts `re.findall(pattern, analysis_text,
re.IGNORECASE)` hits for each quality dimension.  Most patterns are literal
substrings; the remaining regexes (`\d+\.?\d*%`, `\$\d+`,
`\d{4}-\d{2}-\d{2}`, `\d+`, `\d{4}`, `within \d+`, `by \d{4}`, and the
proper-noun pattern `\b[A-Z][a-z]+(?:\s+[A-Z][a-z]+)+\b`, which under
IGNORECASE matches any run of two or more multi-letter words separated by
whitespace) get dedicated matchers below.  All counting is non-overlapping
left to right. -/

/-- ASCII letter (with IGNORECASE, both `[A-Z]` and `[a-z]` mean this). -/
def isLetterChar (c : Char) : Bool := c.isAlpha

/-- One depth-indicator pattern. -/
inductive Pat
  | lit (s : String)
  | percent
  | dollar
  | isoDate
  | digits
  | year4
  | withinN
  | byYear
  | properNoun
  deriving Repr

/-- Case-insensitive literal prefix match (pattern literals are lower case). -/
def matchLitCI : List Char → List Char → Bool
  | [], _ => true
  | _ :: _, [] => false
  | p :: ps, t :: ts => if t.toLower == p then matchLitCI ps ts else false

/-- Take exactly `n` leading digits, returning the rest. -/
def takeDigits : Nat → List Char → Option (List Char)
  | 0, t => some t
  | _ + 1, [] => none
  | n + 1, c :: rest => if c.isDigit then takeDigits n rest else none

/-- The continuation of the greedy proper-noun chain after a completed word:
try to append one more `\s+`+word(≥2 letters) group; if no longer chain has a
valid trailing `\b`, stop here when the next character is not a word
character.  (`consumed` is the length matched so far.) -/
def pnChain : Nat → Nat → List Char → Option Nat
  | 0, _, _ => none
  | fuel + 1, consumed, t =>
      let extended : Option Nat :=
        let ws := countLeading isSpaceChar t
        if ws = 0 then none
        else
          let t2 := t.drop ws
          let ls := countLeading isLetterChar t2
          if ls < 2 then none
          else pnChain fuel (consumed + ws + ls) (t2.drop ls)
      match extended with
      | some n => some n
      | none => if boundaryAfter t then some consumed else none

/-- Match one depth pattern at the current position; returns the number of
characters consumed.  `prev` is the preceding character (for the leading `\b`
of the proper-noun pattern). -/
def matchPat (p : Pat) (prev : Option Char) (text : List Char) : Option Nat :=
  match p with
  | .lit s => if matchLitCI s.toList text then some s.toList.length else none
  | .percent =>
      let d1 := countLeading Char.isDigit text
      if d1 = 0 then none
      else
        match text.drop d1 with
        | '%' :: _ => some (d1 + 1)
        | '.' :: r2 =>
            let d2 := countLeading Char.isDigit r2
            match r2.drop d2 with
            | '%' :: _ => some (d1 + 1 + d2 + 1)
            | _ => none
        | _ => none
  | .dollar =>
      match text with
      | '$' :: t =>
          let d := countLeading Char.isDigit t
          if d ≥ 1 then some (1 + d) else none
      | _ => none
  | .isoDate =>
      match takeDigits 4 text with
      | some ('-' :: r1) =>
          match takeDigits 2 r1 with
          | some ('-' :: r2) =>
              match takeDigits 2 r2 with
              | some _ => some 10
              | none => none
          | _ => none
      | _ => none
  | .digits =>
      let d := countLeading Char.isDigit text
      if d ≥ 1 then some d else none
  | .year4 =>
      match takeDigits 4 text with
      | some _ => some 4
      | none => none
  | .withinN =>
      if matchLitCI "within ".toList text then
        let d := countLeading Char.isDigit (text.drop 7)
        if d ≥ 1 then some (7 + d) else none
      else none
  | .byYear =>
      if matchLitCI "by ".toList text then
        match takeDigits 4 (text.drop 3) with
        | some _ => some 7
        | none => none
      else none
  | .properNoun =>
      if prevIsWord prev then none
      else
        let w1 := countLeading isLetterChar text
        if w1 < 2 then none
        else
          let t1 := text.drop w1
          let ws := countLeading isSpaceChar t1
          if ws = 0 then none
          else
            let t2 := t1.drop ws
            let w2 := countLeading isLetterChar t2
            if w2 < 2 then none
            else pnChain (t2.length + 1) (w1 + ws + w2) (t2.drop w2)

/-- Non-overlapping left-to-right count of one pattern. -/
def scanPat (p : Pat) : Nat → Option Char → List Char → Nat
  | 0, _, _ => 0
  | _ + 1, _, [] => 0
  | fuel + 1, prev, c :: rest =>
      match matchPat p prev (c :: rest) with
      | some n =>
          1 + scanPat p fuel (some ((c :: rest).getD (n - 1) c)) ((c :: rest).drop n)
      | none => scanPat p fuel (some c) rest

/-- `len(re.findall(pattern, analysis_text, re.IGNORECASE))`. -/
def countPat (p : Pat) (text : List Char) : Nat :=
  scanPat p (text.length + 1) none text

/-- `DEPTH_INDICATORS["evidence_based"]`. -/
def evidencePats : List Pat :=
  [.percent, .dollar, .isoDate, .lit "according to", .lit "data shows", .lit "reported",
   .lit "measured", .lit "observed", .lit "historically", .lit "statistics indicate"]

/-- `DEPTH_INDICATORS["causal_reasoning"]`. -/
def causalPats : List Pat :=
  [.lit "because", .lit "therefore", .lit "as a result", .lit "leads to", .lit "causes",
   .lit "due to", .lit "consequently", .lit "mechanism", .lit "pathway", .lit "triggers",
   .lit "drives"]

/-- `DEPTH_INDICATORS["uncertainty_handling"]`. -/
def uncertaintyPats : List Pat :=
  [.lit "uncertainty", .lit "unclear", .lit "unknown", .lit "may", .lit "might",
   .lit "could", .lit "possibly", .lit "potentially", .lit "difficult to predict",
   .lit "range of outcomes", .lit "depends on"]

/-- `DEPTH_INDICATORS["counterarguments"]`. -/
def counterargumentPats : List Pat :=
  [.lit "however", .lit "although", .lit "alternatively", .lit "on the other hand",
   .lit "conversely", .lit "but", .lit "yet", .lit "despite", .lit "counterpoint",
   .lit "opposing view"]

/-- `DEPTH_INDICATORS["specifics"]`. -/
def specificsPats : List Pat :=
  [.properNoun, .digits, .lit "specifically", .lit "in particular", .lit "namely",
   .lit "for example", .lit "such as"]

/-- `DEPTH_INDICATORS["temporal_reasoning"]`. -/
def temporalPats : List Pat :=
  [.year4, .lit "timeline", .lit "timeframe", .withinN, .byYear, .lit "after",
   .lit "before", .lit "during", .lit "sequence", .lit "progression", .lit "phases"]

/-- Total indicator hits of one dimension. -/
def dimensionCount (pats : List Pat) (text : List Char) : Nat :=
  (pats.map fun p => countPat p text).sum

/-- `min(1.0, count / 5.0)` — normalization with diminishing returns. -/
def dimensionScore (pats : List Pat) (text : List Char) : ℚ :=
  min 1 ((dimensionCount pats text : ℚ) / 5)

/-- Case-insensitive substring test, via the literal scanner. -/
def containsCI (s : String) (text : List Char) : Bool :=
  countPat (.lit s) text ≥ 1

/-- `SUPERFICIAL_INDICATORS`, evaluated with `re.search(pattern,
analysis_text.strip(), re.IGNORECASE)`:
* `^.{0,150}$` matches the stripped text exactly when it contains no newline
  (`.` excludes `\n`; `$` only matches at the end since stripping removed any
  trailing newline) and has at most 150 characters;
* `^(yes|no|maybe|unclear|unknown)\.?$` matches exactly the whole-string
  one-word answers, optionally dotted;
* the remaining four patterns are substring searches. -/
def redFlags (stripped : List Char) : List String :=
  (if stripped.length ≤ 150 && !stripped.contains '\n'
   then ["Response too short (<150 chars)"] else []) ++
  (if ["yes", "no", "maybe", "unclear", "unknown"].any (fun w =>
        stripped.map Char.toLower = w.toList ∨ stripped.map Char.toLower = w.toList ++ ['.'])
   then ["One-word answer"] else []) ++
  (if containsCI "it depends" stripped then ["Vague cop-out without specifics"] else []) ++
  (if ["difficult", "hard", "impossible"].any (fun a =>
        ["say", "predict", "determine"].any (fun b =>
          containsCI (a ++ " to " ++ b) stripped))
   then ["Dismissive without analysis"] else []) ++
  (if ["generally", "usually", "often", "sometimes"].any (fun w => containsCI w stripped)
   then ["Overgeneralization without evidence"] else []) ++
  (if ["information", "data", "context"].any (fun w => containsCI ("need more " ++ w) stripped)
   then ["Deflection without using available context"] else [])

/-- `AnalysisQualityScore` (follow-up question texts are not modelled; they
do not feed back into `needs_requery`). -/
structure AnalysisQualityScore where
  depth_score : ℚ
  evidence_based : ℚ
  causal_reasoning : ℚ
  uncertainty_handling : ℚ
  counterarguments : ℚ
  specifics : ℚ
  temporal_reasoning : ℚ
  red_flags : List String
  needs_requery : Bool
  deriving Repr

/-- The scoring core of `MetaAnalystAgent.assess_analysis_quality`, applied
to the selected `analysis_text` (the parsed `analysis` field, else the
`recommendation` field, else the raw response), with the default
`requery_threshold = 0.6`.  Weighted depth score minus a red-flag penalty of
`min(0.3, 0.1 × flags)`, clamped at 0;
`needs_requery = depth < threshold or flags ≥ 2`. -/
def assess_analysis_quality (analysis_text : String)
    (requery_threshold : ℚ := 6/10) : AnalysisQualityScore :=
  let text := analysis_text.toList
  let evidence_based := dimensionScore evidencePats text
  let causal_reasoning := dimensionScore causalPats text
  let uncertainty_handling := dimensionScore uncertaintyPats text
  let counterarguments := dimensionScore counterargumentPats text
  let specifics := dimensionScore specificsPats text
  let temporal_reasoning := dimensionScore temporalPats text
  let red_flags := redFlags (stripStr analysis_text).toList
  let depth0 :=
    evidence_based * (25/100) + causal_reasoning * (20/100)
      + uncertainty_handling * (15/100) + counterarguments * (15/100)
      + specifics * (15/100) + temporal_reasoning * (10/100)
  let penalty := min (3/10) ((red_flags.length : ℚ) * (1/10))
  let depth_score := max 0 (depth0 - penalty)
  { depth_score := depth_score, evidence_based := evidence_based,
    causal_reasoning := causal_reasoning, uncertainty_handling := uncertainty_handling,
    counterarguments := counterarguments, specifics := specifics,
    temporal_reasoning := temporal_reasoning, red_flags := red_flags,
    needs_requery := decide (depth_score < requery_threshold) || decide (red_flags.length ≥ 2) }

/-- A 142-character single-line response dense in quality indicators. -/
def denseShort : String :=
  "5% 7% 9% 3% 2% because therefore causes due to triggers drives may might could possibly however although but yet after before during 2025 2026"

/-- C8 counterexample: an analysis text shorter than 150 characters whose
quality assessment returns `needs_requery = false` — the too-short red flag
fires (1 flag), but the weighted depth score is 0.94 − 0.1 = 0.84 ≥ 0.6, so
neither requery condition holds. -/
theorem short_dense_response_passes :
    denseShort.length < 150 ∧
    (assess_analysis_quality denseShort).needs_requery = false := by
  constructor
  · have h : denseShort.length = 142 := by with_unfolding_all rfl
    rw [h]; norm_num
  · with_unfolding_all rfl

/-- C8 amended: a (stripped) analysis text with no newline and at most 150
characters always receives the "Response too short" red flag, and
`needs_requery` holds exactly when the depth score is below the 0.6
threshold or at least 2 red flags fire — shortness alone does not force a
requery. -/
theorem short_single_line_flags_too_short (text : String)
    (hlen : (stripStr text).toList.length ≤ 150)
    (hnl : (stripStr text).toList.contains '\n' = false) :
    "Response too short (<150 chars)" ∈ (assess_analysis_quality text).red_flags ∧
    (assess_analysis_quality text).needs_requery =
      (decide ((assess_analysis_quality text).depth_score < 6/10) ||
        decide (2 ≤ (assess_analysis_quality text).red_flags.length)) := by
  constructor
  · show "Response too short (<150 chars)" ∈ redFlags (stripStr text).toList
    unfold redFlags
    have hcond : ((stripStr text).toList.length ≤ 150 && !(stripStr text).toList.contains '\n') = true := by
      rw [hnl]
      simp only [Bool.not_false, Bool.and_true]
      exact decide_eq_true hlen
    rw [hcond]
    simp
  · rfl

/-- Witness for the amended C8 at a concrete short text. -/
theorem short_single_line_flags_too_short_witness :
    "Response too short (<150 chars)" ∈ (assess_analysis_quality "short").red_flags ∧
    (assess_analysis_quality "short").needs_requery =
      (decide ((assess_analysis_quality "short").depth_score < 6/10) ||
        decide (2 ≤ (assess_analysis_quality "short").red_flags.length)) :=
  short_single_line_flags_too_short "short"
    (by
      have h : ((stripStr "short").toList.length) = 5 := by with_unfolding_all rfl
      rw [h]; norm_num)
    (by with_unfolding_all rfl)

/-! ## Orchestration (`run_conversation`, `src/forecasting/agents.py`) -/

/-- The dict produced by `_extract_json_block`: either a payload whose
`declined` key is truthy, or a structured brief with optional keys. -/
inductive ParsedResponse
  | declinedJson (reason : Option String)
  | structured (analysis : Option String) (probability : Option ℚ)
      (confidence : Option ℚ) (recommendation : Option String)
  deriving Repr

/-- Python truthiness of the parsed dict (`{}` — all keys absent — is
falsy). -/
def ParsedResponse.isTruthy : ParsedResponse → Bool
  | .declinedJson _ => true
  | .structured a p c r => a.isSome || p.isSome || c.isSome || r.isSome

/-- One backend reply for an agent: raw text with its parse result, or a
raised exception. -/
inductive BackendReply
  | reply (raw : String) (parsed : Option ParsedResponse)
  | failure (err : String)
  deriving Repr

/-- The summarizer's parsed JSON (all keys optional). -/
structure SummaryParsed where
  verdict : Option String
  probability : Option ℚ
  confidence : Option ℚ
  rationale : Option String
  deriving Repr

/-- The summarizer call's outcome. -/
inductive SynthReply
  | reply (raw : String) (parsed : Option SummaryParsed)
  | failure (err : String)
  deriving Repr

/-- An agent profile (name, backing model, base weight); the persona text
only feeds prompt material and is omitted. -/
structure Agent where
  name : String
  model : String
  weight : ℚ
  deriving Repr

/-- The `summary` dict of the result. -/
structure Summary where
  verdict : Option String
  probability : Option ℚ
  confidence : Option ℚ
  rationale : Option String
  error : Option String
  deriving Repr

/-- One entry of `agent_outputs` / `declined_agents`. -/
structure AgentOutput where
  agent : String
  raw : String
  parsed : Option ParsedResponse
  weight : ℚ
  cached : Bool
  declined : Bool
  deriving Repr

/-- The dict returned by `run_conversation`, restricted to the modelled
fields, plus `model_calls`: the number of backend invocations attempted
(observable for the no-dispatch-on-rejection claims). -/
structure RunResult where
  question : String
  agents : List AgentOutput
  declined_agents : List AgentOutput
  summary : Summary
  error : Option String
  reputation_consensus : Option ConsensusOut
  requires_review : Bool
  model_calls : Nat
  deriving Repr

/-- Python string slicing `s[:n]` (by code points). -/
def takeStr (n : Nat) (s : String) : String := String.mk (s.toList.take n)

/-- `call_agent` inside `run_conversation`: cache lookup (including the
"DECLINED" sentinel), backend call on miss, decline detection, and
response/decline caching.  Returns the output dict, the updated cache table
and the number of model invocations (0 or 1). -/
def call_agent (cache_responses : Bool) (question : String)
    (backend : String → BackendReply) (agent : Agent) (db : CacheDB) :
    AgentOutput × CacheDB × Nat :=
  let cachedHit : Option CachedView :=
    if cache_responses then get_cached_response question agent.name db else none
  match cachedHit with
  | some cached =>
      if cached.analysis == "DECLINED" then
        ({ agent := agent.name, raw := cached.raw_response,
           parsed := some (.declinedJson (some cached.recommendation)),
           weight := agent.weight, cached := true, declined := true }, db, 0)
      else
        ({ agent := agent.name, raw := cached.raw_response,
           parsed := some (.structured (some cached.analysis) cached.probability
             cached.confidence (some cached.recommendation)),
           weight := agent.weight, cached := true, declined := false }, db, 0)
  | none =>
      match backend agent.name with
      | .failure exc =>
          ({ agent := agent.name, raw := "ERROR: " ++ takeStr 200 exc, parsed := none,
             weight := agent.weight, cached := false, declined := false }, db, 1)
      | .reply raw parsed =>
          match parsed with
          | some (.declinedJson reason) =>
              let db' := if cache_responses then
                  (cache_response question agent.name "DECLINED" none none
                    (reason.getD "") raw db).2
                else db
              ({ agent := agent.name, raw := raw, parsed := some (.declinedJson reason),
                 weight := agent.weight, cached := false, declined := true }, db', 1)
          | some (.structured a p c r) =>
              let db' := if (ParsedResponse.structured a p c r).isTruthy && cache_responses then
                  (cache_response question agent.name (a.getD "") p c (r.getD "") raw db).2
                else db
              ({ agent := agent.name, raw := raw, parsed := some (.structured a p c r),
                 weight := agent.weight, cached := false, declined := false }, db', 1)
          | none =>
              ({ agent := agent.name, raw := raw, parsed := none,
                 weight := agent.weight, cached := false, declined := false }, db, 1)

/-- Accumulator of the dispatch fan-out (lines 481-614 of `agents.py`). -/
structure DispatchState where
  db : CacheDB
  model_calls : Nat
  agent_outputs : List AgentOutput
  declined_agents : List AgentOutput
  total_weight : ℚ
  weighted_probability : ℚ
  weighted_confidence : ℚ
  deriving Repr

/-- Collect one agent's result: declines to `declined_agents`, everything
else to `agent_outputs` with its weight added to the total and its numeric
probability/confidence (when the parsed dict is truthy and the field is a
number) added to the weighted sums. -/
def dispatchStep (cache_responses : Bool) (question : String)
    (backend : String → BackendReply) (st : DispatchState) (agent : Agent) : DispatchState :=
  let r := call_agent cache_responses question backend agent st.db
  let result := r.1
  let db' := r.2.1
  let calls := r.2.2
  if result.declined then
    { st with
      db := db', model_calls := st.model_calls + calls,
      declined_agents := st.declined_agents ++ [result] }
  else
    let contrib : ℚ × ℚ :=
      match result.parsed with
      | some (.structured a p c rec) =>
          if (ParsedResponse.structured a p c rec).isTruthy then
            ((match p with | some prob => prob * result.weight | none => 0),
             (match c with | some conf => conf * result.weight | none => 0))
          else (0, 0)
      | _ => (0, 0)
    { st with
      db := db', model_calls := st.model_calls + calls,
      agent_outputs := st.agent_outputs ++ [result],
      total_weight := st.total_weight + result.weight,
      weighted_probability := st.weighted_probability + contrib.1,
      weighted_confidence := st.weighted_confidence + contrib.2 }

/-- `run_conversation`, embedded.  Omitted relative to the source, with no
effect on the modelled fields: article loading and TF-IDF context building
(context only feeds prompt text), the orchestrator plan, report generation,
the performance tracker and the reputation `record_prediction` writes (side
effects on other stores), and the `enabled_agents` filter (the callers in
scope pass none).  The thread-pool fan-out is modelled as a deterministic
left-to-right fold; the aggregated sums are order-independent.  `backend`
gives each agent's model reply, `synth` the summarizer call's outcome;
`rep agent domain` stands for
`ReputationTracker.calculate_agent_reputation(agent, domain)` and
`dx agent domain` for `config.get_domain_expertise`. -/
def run_conversation (question : String) (agents : List Agent) (db0 : CacheDB)
    (cache_responses : Bool) (backend : String → BackendReply) (synth : SynthReply)
    (rep : String → String → ℚ) (dx : String → String → ℚ) : RunResult :=
  if stripStr question = "" then
    { question := "", agents := [], declined_agents := [],
      summary := { verdict := some "Invalid input", probability := none, confidence := none,
                   rationale := none, error := none },
      error := some "Question cannot be empty", reputation_consensus := none,
      requires_review := false, model_calls := 0 }
  else
    let question := takeStr 2000 (stripStr question)
    if agents.isEmpty then
      { question := question, agents := [], declined_agents := [],
        summary := { verdict := some "No agents configured", probability := none,
                     confidence := none, rationale := none, error := none },
        error := none, reputation_consensus := none, requires_review := false,
        model_calls := 0 }
    else if agents.length < 2 then
      { question := question, agents := [], declined_agents := [],
        summary := { verdict := some "⚠️ Orchestration Blocked", probability := none,
                     confidence := none,
                     rationale := some ("Multi-agent orchestration requires at least 2 agents. Currently configured: "
                       ++ toString agents.length
                       ++ ". Add more model configurations to enable analysis."),
                     error := some "Insufficient agents for meaningful multi-perspective analysis" },
        error := none, reputation_consensus := none, requires_review := false,
        model_calls := 0 }
    else
      let st := agents.foldl (dispatchStep cache_responses question backend)
        { db := db0, model_calls := 0, agent_outputs := [], declined_agents := [],
          total_weight := 0, weighted_probability := 0, weighted_confidence := 0 }
      let weighted_probability :=
        if st.total_weight > 0 then st.weighted_probability / st.total_weight
        else st.weighted_probability
      let weighted_confidence :=
        if st.total_weight > 0 then st.weighted_confidence / st.total_weight
        else st.weighted_confidence
      let model_calls := st.model_calls + 1
      let summary : Summary :=
        match synth with
        | .failure exc =>
            { verdict := some ("Synthesis complete with " ++
                toString st.agent_outputs.length ++ " expert inputs"),
              probability := some weighted_probability,
              confidence := some weighted_confidence,
              rationale := none, error := some (takeStr 100 exc) }
        | .reply raw none =>
            { verdict := some (takeStr 500 raw),
              probability := some weighted_probability,
              confidence := some weighted_confidence,
              rationale := some "Model response processed (not JSON)", error := none }
        | .reply _ (some sp) =>
            { verdict := sp.verdict,
              probability := some (sp.probability.getD weighted_probability),
              confidence := some (sp.confidence.getD weighted_confidence),
              rationale := sp.rationale, error := none }
      let reputation_consensus : Option ConsensusOut :=
        match classify question with
        | .error _ => none
        | .ok dc =>
            let agent_predictions := st.agent_outputs.filterMap fun ao =>
              if ao.declined then none
              else
                match ao.parsed with
                | some (.structured _ p c _) =>
                    some { agent_name := ao.agent,
                           probability := p.getD (1/2), confidence := c.getD (1/2),
                           weight := ao.weight * dx ao.agent dc.primary_domain }
                | _ => none
            some (get_weighted_consensus (fun name => rep name dc.primary_domain)
              agent_predictions true)
      { question := question, agents := st.agent_outputs,
        declined_agents := st.declined_agents, summary := summary, error := none,
        reputation_consensus := reputation_consensus,
        requires_review :=
          match reputation_consensus with
          | some c => c.requires_review.getD false
          | none => false,
        model_calls := model_calls }

/-- A 3-agent panel with unit weights. -/
def failAgents : List Agent :=
  [{ name := "A1", model := "m1", weight := 1 },
   { name := "A2", model := "m2", weight := 1 },
   { name := "A3", model := "m3", weight := 1 }]

/-- A backend in full outage: every call raises. -/
def outageBackend : String → BackendReply := fun _ => .failure "Cannot reach Ollama"

/-- A run in which every agent of a 3-agent panel fails at the backend (the
summarizer call fails too), over a fresh cache and a fresh reputation
store. -/
def c1run : RunResult :=
  run_conversation "Will war escalate" failAgents {} true outageBackend
    (.failure "Cannot reach Ollama") (fun _ _ => 1/2) (fun _ _ => 7/10)

/-- C1 counterexample: with 0 of 3 agents successfully dispatched, the
engine does NOT return a terminal insufficient-panel result: the run
completes with no top-level error, the summary carries numeric probability
and confidence values (the failed agents' weights drag the weighted average
to 0), and a reputation consensus object with numeric values (0.5 / 0.0) is
produced. -/
theorem all_fail_panel_still_produces_consensus :
    c1run.error = none ∧
    c1run.summary.verdict = some "Synthesis complete with 3 expert inputs" ∧
    c1run.summary.probability = some 0 ∧
    c1run.summary.confidence = some 0 ∧
    c1run.reputation_consensus =
      some { consensus_probability := 1/2, consensus_confidence := 0, total_weight := 0,
             agent_weights := [], dissent_percentage := none, requires_review := none } ∧
    c1run.agents.length = 3 := by
  refine ⟨?_, ?_, ?_, ?_, ?_, ?_⟩ <;> with_unfolding_all rfl

/-- C1 amended: the fewer-than-2 gate applies to the number of CONFIGURED
agents, before dispatch: with fewer than 2 agents configured, the run stops
with a blocked verdict, null probability/confidence, no consensus object and
no model call.  (Backend failures after dispatch do not trigger this gate,
per the counterexample.) -/
theorem insufficient_configured_agents_blocked
    (question : String) (agents : List Agent) (db0 : CacheDB) (cc : Bool)
    (backend : String → BackendReply) (synth : SynthReply)
    (rep dx : String → String → ℚ)
    (hq : ¬ stripStr question = "") (hlt : agents.length < 2) :
    (run_conversation question agents db0 cc backend synth rep dx).summary.probability = none ∧
    (run_conversation question agents db0 cc backend synth rep dx).summary.confidence = none ∧
    ((run_conversation question agents db0 cc backend synth rep dx).summary.verdict
        = some "No agents configured" ∨
      (run_conversation question agents db0 cc backend synth rep dx).summary.verdict
        = some "⚠️ Orchestration Blocked") ∧
    (run_conversation question agents db0 cc backend synth rep dx).model_calls = 0 ∧
    (run_conversation question agents db0 cc backend synth rep dx).reputation_consensus
      = none := by
  cases agents with
  | nil =>
      refine ⟨?_, ?_, Or.inl ?_, ?_, ?_⟩ <;>
        · unfold run_conversation
          rw [if_neg hq]
          with_unfolding_all rfl
  | cons a rest =>
      cases rest with
      | nil =>
          refine ⟨?_, ?_, Or.inr ?_, ?_, ?_⟩ <;>
            · unfold run_conversation
              rw [if_neg hq]
              with_unfolding_all rfl
      | cons b rest2 => exact absurd hlt (by simp only [List.length_cons]; omega)

/-- Witness for the amended C1: a single-agent configuration is blocked. -/
theorem insufficient_configured_agents_blocked_witness :
    (run_conversation "hi" [{ name := "solo", model := "m", weight := 1 }] {} true
        outageBackend (.failure "down") (fun _ _ => 1/2) (fun _ _ => 7/10)).summary.probability
      = none ∧
    (run_conversation "hi" [{ name := "solo", model := "m", weight := 1 }] {} true
        outageBackend (.failure "down") (fun _ _ => 1/2) (fun _ _ => 7/10)).summary.confidence
      = none ∧
    ((run_conversation "hi" [{ name := "solo", model := "m", weight := 1 }] {} true
        outageBackend (.failure "down") (fun _ _ => 1/2) (fun _ _ => 7/10)).summary.verdict
        = some "No agents configured" ∨
      (run_conversation "hi" [{ name := "solo", model := "m", weight := 1 }] {} true
        outageBackend (.failure "down") (fun _ _ => 1/2) (fun _ _ => 7/10)).summary.verdict
        = some "⚠️ Orchestration Blocked") ∧
    (run_conversation "hi" [{ name := "solo", model := "m", weight := 1 }] {} true
        outageBackend (.failure "down") (fun _ _ => 1/2) (fun _ _ => 7/10)).model_calls = 0 ∧
    (run_conversation "hi" [{ name := "solo", model := "m", weight := 1 }] {} true
        outageBackend (.failure "down") (fun _ _ => 1/2) (fun _ _ => 7/10)).reputation_consensus
      = none :=
  insufficient_configured_agents_blocked "hi" [{ name := "solo", model := "m", weight := 1 }]
    {} true outageBackend (.failure "down") (fun _ _ => 1/2) (fun _ _ => 7/10)
    (by
      have h : stripStr "hi" = "hi" := by with_unfolding_all rfl
      rw [h]; intro hc
      have hd : ("hi".data.length) = (("" : String).data.length) := by rw [hc]
      simp at hd)
    (by decide)

/-- An oversized question: 2050 characters, above the 2000-character cap. -/
def longQuestion : String := String.mk (List.replicate 2050 'a')

/-- A 2-agent panel with unit weights. -/
def twoAgents : List Agent :=
  [{ name := "A1", model := "m1", weight := 1 },
   { name := "A2", model := "m2", weight := 1 }]

/-- A healthy backend: every agent returns a parseable structured brief. -/
def okBackend : String → BackendReply := fun _ =>
  .reply "raw json text" (some (.structured (some "analysis") (some (1/2)) (some (1/2)) (some "rec")))

/-- A run on the oversized question with response caching disabled
(`CACHE_RESPONSES=false` configuration). -/
def c9run : RunResult :=
  run_conversation longQuestion twoAgents {} false okBackend
    (.reply "verdict text" none) (fun _ _ => 1/2) (fun _ _ => 7/10)

/-- Stripping the oversized all-letter question is the identity. -/
theorem strip_longQuestion : stripStr longQuestion = longQuestion := by
  unfold stripStr longQuestion
  have hto : (String.mk (List.replicate 2050 'a')).toList = List.replicate 2050 'a' := rfl
  rw [hto]
  have hdrop : (List.replicate 2050 'a').dropWhile isSpaceChar = List.replicate 2050 'a' := by
    rw [show (2050 : Nat) = 2049 + 1 from rfl, List.replicate_succ, List.dropWhile_cons]
    rw [show isSpaceChar 'a' = false from rfl]
    simp only [Bool.false_eq_true, if_false]
  rw [hdrop, List.reverse_replicate, hdrop, List.reverse_replicate]

/-- C9 counterexample: a 2050-character question is NOT rejected before
dispatch — the run proceeds with the question truncated to 2000 characters,
without a validation error, and the two agents plus the summarizer are all
invoked (3 model calls). -/
theorem oversized_question_not_rejected :
    2000 < longQuestion.length ∧
    c9run.error = none ∧
    c9run.question = takeStr 2000 (stripStr longQuestion) ∧
    (takeStr 2000 (stripStr longQuestion)).length = 2000 ∧
    c9run.model_calls = 3 := by
  refine ⟨?_, ?_, ?_, ?_, ?_⟩
  · have h : longQuestion.length = 2050 := by
      show (List.replicate 2050 'a').length = 2050
      simp
    rw [h]; norm_num
  · with_unfolding_all rfl
  · with_unfolding_all rfl
  · rw [strip_longQuestion]
    show ((List.replicate 2050 'a').take 2000).length = 2000
    rw [List.length_take, List.length_replicate]
    omega
  · with_unfolding_all rfl

/-- C9 amended: an empty (or all-whitespace) question is rejected before
dispatch with an error result carrying no numeric probability/confidence and
no model call; an oversized question is NOT rejected — it is truncated to
2000 characters and processed normally (no top-level error). -/
theorem empty_rejected_oversized_truncated
    (q1 q2 : String) (agents : List Agent) (db0 : CacheDB) (cc : Bool)
    (backend : String → BackendReply) (synth : SynthReply)
    (rep dx : String → String → ℚ)
    (h1 : stripStr q1 = "") (h2 : ¬ stripStr q2 = "") (hagents : 2 ≤ agents.length) :
    (run_conversation q1 agents db0 cc backend synth rep dx).error
        = some "Question cannot be empty" ∧
    (run_conversation q1 agents db0 cc backend synth rep dx).summary.probability = none ∧
    (run_conversation q1 agents db0 cc backend synth rep dx).summary.confidence = none ∧
    (run_conversation q1 agents db0 cc backend synth rep dx).model_calls = 0 ∧
    (run_conversation q2 agents db0 cc backend synth rep dx).question
        = takeStr 2000 (stripStr q2) ∧
    (run_conversation q2 agents db0 cc backend synth rep dx).error = none := by
  cases agents with
  | nil => exact absurd hagents (by simp only [List.length_nil]; omega)
  | cons a rest =>
      cases rest with
      | nil => exact absurd hagents (by simp only [List.length_cons, List.length_nil]; omega)
      | cons b rest2 =>
          refine ⟨?_, ?_, ?_, ?_, ?_, ?_⟩
          · unfold run_conversation; rw [if_pos h1]
          · unfold run_conversation; rw [if_pos h1]
          · unfold run_conversation; rw [if_pos h1]
          · unfold run_conversation; rw [if_pos h1]
          · unfold run_conversation
            rw [if_neg h2, show (a :: b :: rest2).isEmpty = false from rfl]
            simp only [Bool.false_eq_true, if_false]
            rw [if_neg (show ¬ (a :: b :: rest2).length < 2 by
              simp only [List.length_cons]; omega)]
          · unfold run_conversation
            rw [if_neg h2, show (a :: b :: rest2).isEmpty = false from rfl]
            simp only [Bool.false_eq_true, if_false]
            rw [if_neg (show ¬ (a :: b :: rest2).length < 2 by
              simp only [List.length_cons]; omega)]

/-- Witness for the amended C9: an all-whitespace question versus a normal
one on a 2-agent panel. -/
theorem empty_rejected_oversized_truncated_witness :
    (run_conversation " " twoAgents {} false okBackend (.reply "v" none)
        (fun _ _ => 1/2) (fun _ _ => 7/10)).error = some "Question cannot be empty" ∧
    (run_conversation " " twoAgents {} false okBackend (.reply "v" none)
        (fun _ _ => 1/2) (fun _ _ => 7/10)).summary.probability = none ∧
    (run_conversation " " twoAgents {} false okBackend (.reply "v" none)
        (fun _ _ => 1/2) (fun _ _ => 7/10)).summary.confidence = none ∧
    (run_conversation " " twoAgents {} false okBackend (.reply "v" none)
        (fun _ _ => 1/2) (fun _ _ => 7/10)).model_calls = 0 ∧
    (run_conversation "hi" twoAgents {} false okBackend (.reply "v" none)
        (fun _ _ => 1/2) (fun _ _ => 7/10)).question = takeStr 2000 (stripStr "hi") ∧
    (run_conversation "hi" twoAgents {} false okBackend (.reply "v" none)
        (fun _ _ => 1/2) (fun _ _ => 7/10)).error = none :=
  empty_rejected_oversized_truncated " " "hi" twoAgents {} false okBackend
    (.reply "v" none) (fun _ _ => 1/2) (fun _ _ => 7/10)
    (by with_unfolding_all rfl)
    (by
      have h : stripStr "hi" = "hi" := by with_unfolding_all rfl
      rw [h]; intro hc
      have hd : ("hi".data.length) = (("" : String).data.length) := by rw [hc]
      simp at hd)
    (by decide)

end Prognosticator
